import Mathlib

/-!
Verification of the region scanning engine of the lost-and-found repository.

The definitions below are a shallow embedding of the TypeScript source:

* src/lib/services/scanner.ts   — tile range math, tile iteration, the scan
  job engine (runScan / pauseScan / isScanPaused / updateScanJobStatus,
  storePotentialSite, processTile), createScanJob;
* src/lib/services/naip.ts      — tileToBbox;
* src/lib/services/analyzer.ts  — featureToGeoCoordinates, confidenceToNumber;
* src/lib/utils/geo.ts          — calculateArea, estimateTileCount,
  validateRegionSize;
* src/routes/api/scanner/+server.ts and
  src/routes/api/scanner/[jobId]/+server.ts — the control surface
  (start / pause / resume / cancel);
* supabase/schema.sql           — has_nearby_site.

Numbers held as JavaScript doubles are modelled as real numbers; database
rows are modelled as explicit records threaded through the functions that
read and write them; the asynchronous store reads that can observe writes
by the control plane between tiles are modelled by an explicit oracle of
external actions applied at each tile boundary, which is exactly the
granularity at which the source can observe them (the loop only reads the
store between tiles).
-/

/-- Geographic bounding box in decimal degrees (src/lib/types). -/
structure BoundingBox where
  north : ℝ
  south : ℝ
  east : ℝ
  west : ℝ

/-- Slippy-map tile coordinate, as the
TileCoordinates record of naip.ts. -/
structure Tile where
  z : Int
  x : Int
  y : Int
deriving DecidableEq, Repr

/-- Scan job status enumeration of scanner.ts (ScanJob.status). -/
inductive Status where
  | queued
  | scanning
  | paused
  | complete
  | failed
deriving DecidableEq, Repr

/-- The persisted scan_jobs row, as read and written by scanner.ts.
Timestamps are abstract ticks. -/
structure JobRow where
  status : Status
  totalTiles : Nat
  scannedTiles : Nat
  sitesFound : Nat
  currentTileX : Int
  currentTileY : Int
  startedAt : Option Nat
  pausedAt : Option Nat
  completedAt : Option Nat
  errorMessage : Option String
deriving DecidableEq, Repr

/-- Integer tile range returned by bboxToTileRange (scanner.ts). -/
structure TileRange where
  minX : Int
  maxX : Int
  minY : Int
  maxY : Int
deriving DecidableEq, Repr

/-- The ascending integer list a, a+1, ..., b produced by a JavaScript
for-loop running while the counter is at most b; empty when b < a. -/
def rangeInt (a b : Int) : List Int :=
  List.map (fun k : Nat => a + (k : Int)) (List.range (b - a + 1).toNat)

/-- iterateTiles of scanner.ts applied to an already computed tile range:
for y from minY to maxY (outer), for x from minX to maxX (inner),
yield the tile (zoom, x, y). -/
def iterateTilesL (zoom : Int) (r : TileRange) : List Tile :=
  (rangeInt r.minY r.maxY).flatMap
    (fun y => (rangeInt r.minX r.maxX).map (fun x => Tile.mk zoom x y))

/-- getTileIndex of scanner.ts: the linear row-major index of (x, y). -/
def getTileIndex (x y minX minY width : Int) : Int :=
  (y - minY) * width + (x - minX)

/-- Width of a tile range, as computed in runScan. -/
def rangeWidth (r : TileRange) : Int :=
  r.maxX - r.minX + 1

/-- Total tile count of a range, the product computed by
calculateTileCount once the range is known. -/
def rangeCount (r : TileRange) : Int :=
  (r.maxX - r.minX + 1) * (r.maxY - r.minY + 1)

/-- The row freshly inserted by createScanJob: queued, zero counters, the
cursor at (minX, minY), total_tiles as computed from the range. -/
def createJobRow (r : TileRange) : JobRow :=
  JobRow.mk Status.queued (rangeCount r).toNat 0 0 r.minX r.minY none none none none

/-- The write issued by the per-tile progress update in runScan:
status scanning plus scanned_tiles, sites_found and the cursor. -/
def writeProgress (row : JobRow) (scanned sites : Nat) (x y : Int) : JobRow :=
  JobRow.mk Status.scanning row.totalTiles scanned sites x y
    row.startedAt row.pausedAt row.completedAt row.errorMessage

/-- The final write of runScan: status complete, final counters and a
completion timestamp. -/
def writeComplete (row : JobRow) (scanned sites : Nat) (now : Nat) : JobRow :=
  JobRow.mk Status.complete row.totalTiles scanned sites
    row.currentTileX row.currentTileY row.startedAt row.pausedAt
    (some now) row.errorMessage

/-- The initial write of runScan: status scanning, and started_at set only
when it was previously unset (the update omits the field otherwise). -/
def writeScanningStart (row : JobRow) (now : Nat) : JobRow :=
  JobRow.mk Status.scanning row.totalTiles row.scannedTiles row.sitesFound
    row.currentTileX row.currentTileY
    (match row.startedAt with
      | none => some now
      | some t => some t)
    row.pausedAt row.completedAt row.errorMessage

/-- The write issued by pauseScan: status paused plus paused_at. -/
def writePaused (row : JobRow) (now : Nat) : JobRow :=
  JobRow.mk Status.paused row.totalTiles row.scannedTiles row.sitesFound
    row.currentTileX row.currentTileY row.startedAt (some now)
    row.completedAt row.errorMessage

/-- The write issued by the cancel action of the control surface: status
failed plus error_message, and nothing else (in particular the update
carries no completed_at field). -/
def writeCancelled (row : JobRow) : JobRow :=
  JobRow.mk Status.failed row.totalTiles row.scannedTiles row.sitesFound
    row.currentTileX row.currentTileY row.startedAt row.pausedAt
    row.completedAt (some "Cancelled by user")

/-- The pause action of POST /api/scanner/[jobId]: rejected unless the job
is currently scanning, otherwise pauseScan is invoked. -/
def pauseAction (row : JobRow) (now : Nat) : JobRow :=
  if row.status = Status.scanning then writePaused row now else row

/-- The cancel action of POST /api/scanner/[jobId]: rejected when the job
is complete or failed, otherwise status failed and the fixed message are
persisted. -/
def cancelAction (row : JobRow) : JobRow :=
  if row.status = Status.complete ∨ row.status = Status.failed then row
  else writeCancelled row

/-- External control-plane command that can land between two tiles of a
running loop. -/
inductive ExtAction where
  | pause
  | cancel
deriving DecidableEq, Repr

/-- Apply an optional control-plane command to the stored row, with the
exact guards of the API route. -/
def applyExt (row : JobRow) (now : Nat) : Option ExtAction → JobRow
  | none => row
  | some ExtAction.pause => pauseAction row now
  | some ExtAction.cancel => cancelAction row

/-- Outcome of processTile for one tile.  Imagery-fetch failures,
detection failures and per-candidate persistence failures are all caught
inside processTile in the source, which then reports zero sites for the
tile; a tile_cache hit skips the tile reporting zero as well.  The ok
case carries the number of candidate sites actually persisted. -/
inductive TileOutcome where
  | cachedSkip
  | fetchFailed
  | detectFailed
  | persistFailed
  | ok (found : Nat)
deriving DecidableEq, Repr

/-- Number of sites processTile reports for a tile: every failure mode is
caught and reported as zero (scanner.ts lines 304-374). -/
def processTileModel : TileOutcome → Nat
  | TileOutcome.ok n => n
  | _ => 0

/-- Environment of one runScan invocation: the control-plane commands
landing at each tile boundary, the per-tile outcomes, and which store
writes fail (the job store throws on a failed update). -/
structure ScanEnv where
  ext : Nat → Option ExtAction
  outcome : Nat → TileOutcome
  updFail : Nat → Bool
  finalFail : Bool
  now : Nat

/-- Result of a runScan invocation: the final stored row, the tiles passed
to processTile in order, the store status observed at each tile boundary
(after any control-plane command landed), and the error propagated out of
runScan, if any. -/
structure RunResult where
  row : JobRow
  visited : List Tile
  trace : List Status
  err : Option String
deriving DecidableEq, Repr

/-- The tile loop of runScan (scanner.ts lines 413-455) over the remaining
tiles, carrying the loop counter i and the local scannedTiles and
sitesFound accumulators. At each boundary: the pending control-plane
command is applied to the store, the loop returns if isScanPaused
observes status paused, otherwise processTile runs, the local counters
advance, and the progress update writes status scanning with the counters
and cursor; a failing progress update is caught by the per-tile catch and
the loop continues with the store unchanged. When the tiles are exhausted
the completion update runs; its failure propagates. -/
def runLoop (env : ScanEnv) : List Tile → Nat → JobRow → Nat → Nat → RunResult
  | [], _i, row, scanned, sites =>
    if env.finalFail then
      RunResult.mk row [] [] (some "Failed to update scan job")
    else
      RunResult.mk (writeComplete row scanned sites env.now) [] [] none
  | t :: rest, i, row, scanned, sites =>
    let row1 := applyExt row env.now (env.ext i)
    if row1.status = Status.paused then
      RunResult.mk row1 [] [row1.status] none
    else
      let found := processTileModel (env.outcome i)
      let scanned1 := scanned + 1
      let sites1 := sites + found
      let row2 := if env.updFail i then row1
        else writeProgress row1 scanned1 sites1 t.x t.y
      let restRes := runLoop env rest (i + 1) row2 scanned1 sites1
      RunResult.mk restRes.row (t :: restRes.visited)
        (row1.status :: restRes.trace) restRes.err

/-- runScan of scanner.ts over a job whose stored bounding box and zoom
resolve to the tile range r (the range and tile list are recomputed from
the immutable region exactly as in the source).  Entry: a missing job row
throws; a status other than queued or paused throws; the initial status
update writes scanning (and started_at when unset) and its failure
throws.  The cursor is read with the JavaScript falsy fallback
(currentTileX || minX), the start index is the row-major linear index of
the cursor, and the loop runs from there. -/
def runScanM (zoom : Int) (r : TileRange) (jobExists : Bool) (row0 : JobRow)
    (initialFail : Bool) (env : ScanEnv) : RunResult :=
  if jobExists = false then
    RunResult.mk row0 [] [] (some "Scan job not found")
  else if ¬(row0.status = Status.queued ∨ row0.status = Status.paused) then
    RunResult.mk row0 [] [] (some "Scan job is not in a runnable state")
  else if initialFail then
    RunResult.mk row0 [] [] (some "Failed to update scan job")
  else
    let row1 := writeScanningStart row0 env.now
    let width := rangeWidth r
    let currentX := if row0.currentTileX = 0 then r.minX else row0.currentTileX
    let currentY := if row0.currentTileY = 0 then r.minY else row0.currentTileY
    let allTiles := iterateTilesL zoom r
    let startIndex := (getTileIndex currentX currentY r.minX r.minY width).toNat
    runLoop env (allTiles.drop startIndex) startIndex row1
      row0.scannedTiles row0.sitesFound

/-- Degrees to radians, lat * PI / 180 as written inline throughout the
source (and as toRadians in geo.ts). -/
noncomputable def latRad (lat : ℝ) : ℝ :=
  lat * Real.pi / 180

/-- The fractional Web-Mercator tile row of a latitude before flooring,
exactly the expression inside Math.floor in bboxToTileRange:
(1 - log(tan(latRad) + 1/cos(latRad)) / PI) / 2 * n. -/
noncomputable def mercN (lat : ℝ) (n : ℝ) : ℝ :=
  (1 - Real.log (Real.tan (latRad lat) + 1 / Real.cos (latRad lat)) / Real.pi) / 2 * n

/-- bboxToTileRange of scanner.ts: floor-projected corner tiles, minX/maxX
from west/east and minY/maxY from north/south (Y grows southward). -/
noncomputable def bboxToTileRange (b : BoundingBox) (zoom : ℕ) : TileRange :=
  let n : ℝ := 2 ^ zoom
  TileRange.mk ⌊(b.west + 180) / 360 * n⌋ ⌊(b.east + 180) / 360 * n⌋
    ⌊mercN b.north n⌋ ⌊mercN b.south n⌋

/-- calculateTileCount of scanner.ts. -/
noncomputable def calculateTileCount (b : BoundingBox) (zoom : ℕ) : Int :=
  rangeCount (bboxToTileRange b zoom)

/-- iterateTiles of scanner.ts applied to a bounding box. -/
noncomputable def iterateTiles (b : BoundingBox) (zoom : ℕ) : List Tile :=
  iterateTilesL zoom (bboxToTileRange b zoom)

/-- tileToBbox of naip.ts: the ground footprint of one slippy tile. -/
noncomputable def tileToBbox (t : Tile) : BoundingBox :=
  let n : ℝ := (2 : ℝ) ^ t.z
  BoundingBox.mk
    (Real.arctan (Real.sinh (Real.pi * (1 - 2 * (t.y : ℝ) / n))) * 180 / Real.pi)
    (Real.arctan (Real.sinh (Real.pi * (1 - 2 * ((t.y : ℝ) + 1) / n))) * 180 / Real.pi)
    (((t.x : ℝ) + 1) / n * 360 - 180)
    ((t.x : ℝ) / n * 360 - 180)

/-- calculateArea of geo.ts: planar area estimate in square kilometers. -/
noncomputable def calculateArea (b : BoundingBox) : ℝ :=
  let latDiffRad := latRad (b.north - b.south)
  let avgLatRad := latRad ((b.north + b.south) / 2)
  let heightKm := latDiffRad * 6371
  let lngDiffRad := latRad (b.east - b.west)
  let widthKm := lngDiffRad * 6371 * Real.cos avgLatRad
  |heightKm * widthKm|

/-- estimateTileCount of geo.ts. -/
noncomputable def estimateTileCount (b : BoundingBox) (zoom : Int) : Int :=
  let latDiff := |b.north - b.south|
  let lngDiff := |b.east - b.west|
  let tileDegrees : ℝ := 0.0014 * (2 : ℝ) ^ ((18 : Int) - zoom)
  max 1 (⌈lngDiff / tileDegrees⌉ * ⌈latDiff / tileDegrees⌉)

/-- Result record of validateRegionSize (geo.ts). -/
structure RegionValidation where
  valid : Bool
  area : ℝ
  tileCount : Int
  message : Option String

/-- validateRegionSize of geo.ts: regions above 100 square kilometers or
below 0.01 square kilometers are invalid. -/
noncomputable def validateRegionSize (b : BoundingBox) : RegionValidation :=
  let area := calculateArea b
  let tileCount := estimateTileCount b 18
  if area > 100 then
    RegionValidation.mk false area tileCount
      (some "Region too large. Please select a smaller area or upgrade your plan.")
  else if area < 0.01 then
    RegionValidation.mk false area tileCount
      (some "Region too small. Please select a larger area for meaningful analysis.")
  else
    RegionValidation.mk true area tileCount none

/-- Three-level categorical confidence of the detection collaborator. -/
inductive Confidence where
  | low
  | medium
  | high
deriving DecidableEq, Repr

/-- confidenceToNumber of analyzer.ts: the fixed categorical-to-numeric
lookup (the default branch of the switch is unreachable over the
three-valued type). -/
noncomputable def confidenceToNumber : Confidence → ℝ
  | Confidence.high => 0.85
  | Confidence.medium => 0.6
  | Confidence.low => 0.35

/-- DetectedFeature of analyzer.ts, with the relative in-image location. -/
structure DetectedFeature where
  ftype : String
  confidence : Confidence
  locX : ℝ
  locY : ℝ
  sizeMeters : Option ℝ
  description : String

/-- featureToGeoCoordinates of analyzer.ts: relative in-image position to
absolute (lat, lng) within the image bounding box. -/
noncomputable def featureToGeoCoordinates (f : DetectedFeature)
    (imageBbox : BoundingBox) : ℝ × ℝ :=
  (imageBbox.north - (imageBbox.north - imageBbox.south) * f.locY,
   imageBbox.west + (imageBbox.east - imageBbox.west) * f.locX)

/-- A row of the sites table, with the fields the dedup query reads. -/
structure SiteRow where
  lat : ℝ
  lng : ℝ
  siteStatus : String
  reviewStatus : String

/-- has_nearby_site of supabase/schema.sql: some site with status known
or verified lies in the planar box of half-width radius/111 degrees of
latitude and radius/(111 cos(lat)) degrees of longitude (BETWEEN is
inclusive). -/
def hasNearbySite (db : List SiteRow) (pLat pLng radiusKm : ℝ) : Prop :=
  ∃ s ∈ db, (s.siteStatus = "known" ∨ s.siteStatus = "verified") ∧
    pLat - radiusKm / 111 ≤ s.lat ∧ s.lat ≤ pLat + radiusKm / 111 ∧
    pLng - radiusKm / (111 * Real.cos (latRad pLat)) ≤ s.lng ∧
    s.lng ≤ pLng + radiusKm / (111 * Real.cos (latRad pLat))

open Classical in
/-- storePotentialSite of scanner.ts: geolocate the candidate inside the
tile bounding box, suppress it when has_nearby_site reports a hit with
the fixed 0.05 km radius, otherwise insert it with status potential and
review_status pending. -/
noncomputable def storePotentialSite (db : List SiteRow) (f : DetectedFeature)
    (tileBbox : BoundingBox) : List SiteRow × Option SiteRow :=
  let lat := tileBbox.north - (tileBbox.north - tileBbox.south) * f.locY
  let lng := tileBbox.west + (tileBbox.east - tileBbox.west) * f.locX
  if hasNearbySite db lat lng 0.05 then (db, none)
  else
    let row := SiteRow.mk lat lng "potential" "pending"
    (db ++ [row], some row)

open Classical in
/-- The feature loop of processTile (scanner.ts lines 353-372): skip
candidates below the confidence threshold, store the rest through the
dedup gate, and count the ones actually persisted. -/
noncomputable def storeTileFeatures (threshold : ℝ) (tileBbox : BoundingBox) :
    List SiteRow → List DetectedFeature → List SiteRow × Nat
  | db, [] => (db, 0)
  | db, f :: rest =>
    if confidenceToNumber f.confidence < threshold then
      storeTileFeatures threshold tileBbox db rest
    else
      match storePotentialSite db f tileBbox with
      | (db1, some _) =>
        let r := storeTileFeatures threshold tileBbox db1 rest
        (r.1, r.2 + 1)
      | (db1, none) => storeTileFeatures threshold tileBbox db1 rest

/-- Region type discriminator of the scan request body. -/
inductive RegionType where
  | hot_zone
  | custom
  | other
deriving DecidableEq, Repr

/-- Body of POST /api/scanner. -/
structure StartScanRequest where
  name : Option String
  regionType : RegionType
  regionId : Option String
  bbox : Option BoundingBox
  zoomLevel : Option Int

/-- Observable outcome of the POST /api/scanner handler: whether a job row
was created, whether runScan was started, the HTTP status, and the
bounding box the job was created with. -/
structure PostOutcome where
  jobCreated : Bool
  engineEntered : Bool
  httpStatus : Nat
  resolvedBbox : Option BoundingBox

/-- The POST /api/scanner handler: after the API-key check and the
region-type field checks, createScanJob runs and runScan is started in
the background.  No region-size validation appears on this path. -/
def scannerPost (apiKeyPresent : Bool) (hotZone : String → Option BoundingBox)
    (req : StartScanRequest) : PostOutcome :=
  if apiKeyPresent = false then PostOutcome.mk false false 400 none
  else
    match req.regionType with
    | RegionType.hot_zone =>
      match req.regionId with
      | none => PostOutcome.mk false false 400 none
      | some rid =>
        match hotZone rid with
        | none => PostOutcome.mk false false 404 none
        | some b => PostOutcome.mk true true 200 (some b)
    | RegionType.custom =>
      match req.bbox with
      | none => PostOutcome.mk false false 400 none
      | some b => PostOutcome.mk true true 200 (some b)
    | RegionType.other => PostOutcome.mk false false 400 none

/-- Helper for the engine-error analysis: absent an external cancel, the
tile loop never writes status failed (its writes are scanning, complete,
or the pause writes of the control surface). -/
theorem runLoop_status_not_failed (env : ScanEnv)
    (hc : ∀ j, env.ext j ≠ some ExtAction.cancel) :
    ∀ (tiles : List Tile) (i : Nat) (row : JobRow) (scanned sites : Nat),
      row.status ≠ Status.failed →
      (runLoop env tiles i row scanned sites).row.status ≠ Status.failed := by
  intro tiles
  induction tiles with
  | nil =>
    intro i row scanned sites hrow
    by_cases hf : env.finalFail
    · simpa [runLoop, hf] using hrow
    · simp [runLoop, hf, writeComplete]
  | cons t rest ih =>
    intro i row scanned sites hrow
    have hext : applyExt row env.now (env.ext i) = row ∨
        applyExt row env.now (env.ext i) = writePaused row env.now := by
      cases hx : env.ext i with
      | none => exact Or.inl rfl
      | some a =>
        cases a with
        | pause =>
          by_cases hs : row.status = Status.scanning <;>
            simp [applyExt, pauseAction, hs]
        | cancel => exact absurd hx (hc i)
    have hrow1 : (applyExt row env.now (env.ext i)).status ≠ Status.failed := by
      rcases hext with h | h <;> rw [h]
      · exact hrow
      · simp [writePaused]
    by_cases hp : (applyExt row env.now (env.ext i)).status = Status.paused
    · simp [runLoop, hp]
    · by_cases hu : env.updFail i <;>
        · simp only [runLoop, hp, if_neg, hu]
          simp only [if_true, if_false, Bool.false_eq_true]
          first
            | exact ih (i + 1) _ _ _ hrow1
            | exact ih (i + 1) _ _ _ (by simp [writeProgress])

/-- C1: for a paused and resumed scan job, the loop restarts at the
persisted cursor, but the cursor persisted by the per-tile progress
update is the tile that was just completed, not the next unscanned tile;
the stated scenario is refuted on a concrete 10-tile job.  The range and
environments below model a 1-row, 10-column job, all tiles succeeding,
with a pause command landing at the fourth tile boundary. -/
def c1Range : TileRange := TileRange.mk 1 10 7 7

def c1EnvPausing : ScanEnv :=
  ScanEnv.mk (fun i => if i == 3 then some ExtAction.pause else none)
    (fun _ => TileOutcome.ok 0) (fun _ => false) false 100

def c1EnvResume : ScanEnv :=
  ScanEnv.mk (fun _ => none) (fun _ => TileOutcome.ok 0) (fun _ => false) false 200

def c1Run1 : RunResult :=
  runScanM 17 c1Range true (createJobRow c1Range) false c1EnvPausing

def c1Run2 : RunResult := runScanM 17 c1Range true c1Run1.row false c1EnvResume

/-- C1 counterexample: a 10-tile job paused after 3 completed tiles holds
the cursor at the third (last completed) tile; resuming re-scans that
tile, so the job ends with scannedTiles = 11, not 10, and the tile
(3, 7) is visited in both runs. -/
theorem C1_counterexample :
    c1Run1.row.status = Status.paused ∧
    c1Run1.row.scannedTiles = 3 ∧
    c1Run1.row.currentTileX = 3 ∧
    c1Run1.visited = [Tile.mk 17 1 7, Tile.mk 17 2 7, Tile.mk 17 3 7] ∧
    c1Run2.row.scannedTiles = 11 ∧
    Tile.mk 17 3 7 ∈ c1Run2.visited := by decide

/-- C1 amended: resumption continues from the persisted cursor, but that
cursor names the last completed tile, which is re-scanned: the 10-tile
job paused after 3 completed tiles resumes at tiles 3 through 10 (the
last completed tile once more, then each remaining tile once) and ends
complete with scannedTiles = 11. -/
theorem C1_resume_rescans_last_completed_tile :
    c1Run1.visited = [Tile.mk 17 1 7, Tile.mk 17 2 7, Tile.mk 17 3 7] ∧
    c1Run2.visited = [Tile.mk 17 3 7, Tile.mk 17 4 7, Tile.mk 17 5 7,
      Tile.mk 17 6 7, Tile.mk 17 7 7, Tile.mk 17 8 7, Tile.mk 17 9 7,
      Tile.mk 17 10 7] ∧
    c1Run2.row.status = Status.complete ∧
    c1Run2.row.scannedTiles = 11 := by decide

/-- C2 scenario: a 2-tile job with a cancel command landing at the second
tile boundary while the loop is running. -/
def c2Range : TileRange := TileRange.mk 0 1 0 0

def c2Env : ScanEnv :=
  ScanEnv.mk (fun i => if i == 1 then some ExtAction.cancel else none)
    (fun _ => TileOutcome.ok 0) (fun _ => false) false 100

def c2Run : RunResult := runScanM 17 c2Range true (createJobRow c2Range) false c2Env

/-- C2 counterexample: cancelling while the loop runs persists status
failed, but the pause check only tests for status paused, so the
in-progress loop keeps going: its next progress update writes status
scanning over the failed status and the job finishes complete — a
transition out of the failed status. -/
theorem C2_counterexample :
    c2Run.trace = [Status.scanning, Status.failed] ∧
    c2Run.row.status = Status.complete ∧
    c2Run.row.errorMessage = some "Cancelled by user" ∧
    c2Run.err = none := by decide

/-- C2 amended: complete and failed are terminal with respect to the
control surface and to new engine invocations — pause and cancel leave
such a row unchanged and runScan refuses to start on it — but a run loop
already in progress is not stopped by a cancellation and can overwrite a
failed status. -/
theorem C2_terminal_for_control_surface :
    ∀ (row : JobRow) (now : Nat),
      (row.status = Status.complete ∨ row.status = Status.failed) →
      pauseAction row now = row ∧
      cancelAction row = row ∧
      ∀ (zoom : Int) (r : TileRange) (jobExists : Bool) (initialFail : Bool)
        (env : ScanEnv),
        (runScanM zoom r jobExists row initialFail env).row = row := by
  intro row now h
  refine ⟨?_, ?_, ?_⟩
  · rcases h with h | h <;> simp [pauseAction, h]
  · simp [cancelAction, h]
  · intro zoom r jobExists initialFail env
    cases jobExists with
    | false => simp [runScanM]
    | true => rcases h with h | h <;> simp [runScanM, h]

def c2TermRow : JobRow :=
  JobRow.mk Status.failed 5 3 1 2 2 (some 1) none none (some "Cancelled by user")

/-- C2 witness: the terminality statement applied to a concrete failed
row. -/
theorem C2_witness :
    (c2TermRow.status = Status.complete ∨ c2TermRow.status = Status.failed) ∧
    pauseAction c2TermRow 7 = c2TermRow ∧
    cancelAction c2TermRow = c2TermRow ∧
    (runScanM 17 c2Range true c2TermRow false c2Env).row = c2TermRow :=
  ⟨Or.inr rfl,
   (C2_terminal_for_control_surface c2TermRow 7 (Or.inr rfl)).1,
   (C2_terminal_for_control_surface c2TermRow 7 (Or.inr rfl)).2.1,
   (C2_terminal_for_control_surface c2TermRow 7 (Or.inr rfl)).2.2 17 c2Range
     true false c2Env⟩

/-- C7: a tile whose imagery fetch, detection call, or candidate
persistence fails is caught inside processTile, which reports zero
sites; the loop still increments scannedTiles, leaves sitesFound
unchanged, persists status scanning, and moves on to the next tile,
visiting the failed tile exactly once (no retry). -/
theorem C7_tile_failure_never_aborts
    (env : ScanEnv) (t : Tile) (rest : List Tile) (i : Nat) (row : JobRow)
    (scanned sites : Nat)
    (hext : env.ext i = none)
    (hrow : row.status ≠ Status.paused)
    (hfail : env.outcome i = TileOutcome.fetchFailed ∨
      env.outcome i = TileOutcome.detectFailed ∨
      env.outcome i = TileOutcome.persistFailed)
    (hupd : env.updFail i = false) :
    processTileModel (env.outcome i) = 0 ∧
    (writeProgress row (scanned + 1) sites t.x t.y).status = Status.scanning ∧
    (writeProgress row (scanned + 1) sites t.x t.y).scannedTiles = scanned + 1 ∧
    (writeProgress row (scanned + 1) sites t.x t.y).sitesFound = sites ∧
    runLoop env (t :: rest) i row scanned sites =
      RunResult.mk
        (runLoop env rest (i + 1) (writeProgress row (scanned + 1) sites t.x t.y)
          (scanned + 1) sites).row
        (t :: (runLoop env rest (i + 1)
          (writeProgress row (scanned + 1) sites t.x t.y) (scanned + 1) sites).visited)
        (row.status :: (runLoop env rest (i + 1)
          (writeProgress row (scanned + 1) sites t.x t.y) (scanned + 1) sites).trace)
        (runLoop env rest (i + 1) (writeProgress row (scanned + 1) sites t.x t.y)
          (scanned + 1) sites).err := by
  have h0 : processTileModel (env.outcome i) = 0 := by
    rcases hfail with h | h | h <;> simp [processTileModel, h]
  refine ⟨h0, rfl, rfl, rfl, ?_⟩
  simp only [runLoop, applyExt, hext]
  rw [if_neg hrow]
  simp [hupd, h0]

def c7Env : ScanEnv :=
  ScanEnv.mk (fun _ => none) (fun _ => TileOutcome.fetchFailed) (fun _ => false)
    false 50

def c7Row : JobRow := JobRow.mk Status.scanning 10 3 2 3 7 (some 1) none none none

def c7Tile : Tile := Tile.mk 17 4 7

/-- C7 witness: the failure-step statement applied to a concrete scanning
row with a concrete fetch-failing tile. -/
theorem C7_witness :
    c7Env.ext 0 = none ∧
    c7Row.status ≠ Status.paused ∧
    (c7Env.outcome 0 = TileOutcome.fetchFailed ∨
      c7Env.outcome 0 = TileOutcome.detectFailed ∨
      c7Env.outcome 0 = TileOutcome.persistFailed) ∧
    c7Env.updFail 0 = false ∧
    (processTileModel (c7Env.outcome 0) = 0 ∧
      (writeProgress c7Row (3 + 1) 2 c7Tile.x c7Tile.y).status = Status.scanning ∧
      (writeProgress c7Row (3 + 1) 2 c7Tile.x c7Tile.y).scannedTiles = 3 + 1 ∧
      (writeProgress c7Row (3 + 1) 2 c7Tile.x c7Tile.y).sitesFound = 2 ∧
      runLoop c7Env [c7Tile] 0 c7Row 3 2 =
        RunResult.mk
          (runLoop c7Env [] 1 (writeProgress c7Row (3 + 1) 2 c7Tile.x c7Tile.y)
            (3 + 1) 2).row
          (c7Tile :: (runLoop c7Env [] 1
            (writeProgress c7Row (3 + 1) 2 c7Tile.x c7Tile.y) (3 + 1) 2).visited)
          (c7Row.status :: (runLoop c7Env [] 1
            (writeProgress c7Row (3 + 1) 2 c7Tile.x c7Tile.y) (3 + 1) 2).trace)
          (runLoop c7Env [] 1 (writeProgress c7Row (3 + 1) 2 c7Tile.x c7Tile.y)
            (3 + 1) 2).err) :=
  ⟨rfl, by decide, Or.inl rfl, rfl,
    C7_tile_failure_never_aborts c7Env c7Tile [] 0 c7Row 3 2 rfl (by decide)
      (Or.inl rfl) rfl⟩

/-- C8 scenario: a 2-tile job whose per-tile progress update fails at the
first tile; the store failure is caught by the per-tile catch. -/
def c8Range : TileRange := TileRange.mk 0 1 0 0

def c8Env : ScanEnv :=
  ScanEnv.mk (fun _ => none) (fun _ => TileOutcome.ok 1) (fun i => i == 0)
    false 100

def c8Run : RunResult := runScanM 17 c8Range true (createJobRow c8Range) false c8Env

/-- C8 counterexample: a store failure during the per-tile progress update
does not propagate out of runScan — the per-tile catch swallows it and
the run finishes complete with no error. -/
theorem C8_counterexample :
    c8Env.updFail 0 = true ∧
    c8Run.err = none ∧
    c8Run.row.status = Status.complete ∧
    c8Run.row.scannedTiles = 2 := by decide

/-- C8 amended: a vanished job record, a failing initial status update and
a failing completion update all propagate out of runScan with the store
row unchanged by that write, and runScan itself never marks the job
failed; but a store failure during the per-tile progress update is
caught by the per-tile catch: the loop continues to the next tile with
the store row unchanged. -/
theorem C8_engine_error_propagation :
    (∀ (zoom : Int) (r : TileRange) (row : JobRow) (initialFail : Bool)
      (env : ScanEnv),
      (runScanM zoom r false row initialFail env).err = some "Scan job not found" ∧
      (runScanM zoom r false row initialFail env).row = row) ∧
    (∀ (zoom : Int) (r : TileRange) (row : JobRow) (env : ScanEnv),
      (row.status = Status.queued ∨ row.status = Status.paused) →
      (runScanM zoom r true row true env).err = some "Failed to update scan job" ∧
      (runScanM zoom r true row true env).row = row) ∧
    (∀ (env : ScanEnv) (i : Nat) (row : JobRow) (scanned sites : Nat),
      env.finalFail = true →
      (runLoop env [] i row scanned sites).err = some "Failed to update scan job" ∧
      (runLoop env [] i row scanned sites).row = row) ∧
    (∀ (env : ScanEnv) (t : Tile) (rest : List Tile) (i : Nat) (row : JobRow)
      (scanned sites : Nat),
      env.ext i = none → row.status ≠ Status.paused → env.updFail i = true →
      runLoop env (t :: rest) i row scanned sites =
        RunResult.mk
          (runLoop env rest (i + 1) row (scanned + 1)
            (sites + processTileModel (env.outcome i))).row
          (t :: (runLoop env rest (i + 1) row (scanned + 1)
            (sites + processTileModel (env.outcome i))).visited)
          (row.status :: (runLoop env rest (i + 1) row (scanned + 1)
            (sites + processTileModel (env.outcome i))).trace)
          (runLoop env rest (i + 1) row (scanned + 1)
            (sites + processTileModel (env.outcome i))).err) ∧
    (∀ (zoom : Int) (r : TileRange) (jobExists : Bool) (row : JobRow)
      (initialFail : Bool) (env : ScanEnv),
      (∀ j, env.ext j ≠ some ExtAction.cancel) →
      row.status ≠ Status.failed →
      (runScanM zoom r jobExists row initialFail env).row.status ≠ Status.failed) := by
  refine ⟨?_, ?_, ?_, ?_, ?_⟩
  · intro zoom r row initialFail env
    exact ⟨rfl, rfl⟩
  · intro zoom r row env h
    rcases h with h | h <;> simp [runScanM, h]
  · intro env i row scanned sites hf
    simp [runLoop, hf]
  · intro env t rest i row scanned sites hext hrow hupd
    simp only [runLoop, applyExt, hext]
    rw [if_neg hrow]
    simp [hupd]
  · intro zoom r jobExists row initialFail env hc hrow
    cases jobExists with
    | false => simpa [runScanM] using hrow
    | true =>
      by_cases hr : row.status = Status.queued ∨ row.status = Status.paused
      · by_cases hi : initialFail
        · simpa [runScanM, hr, hi] using hrow
        · have hstart : (writeScanningStart row env.now).status ≠ Status.failed := by
            simp [writeScanningStart]
          simpa [runScanM, hr, hi] using
            runLoop_status_not_failed env hc _ _ _ _ _ hstart
      · simpa [runScanM, hr] using hrow

def c8WRow : JobRow := JobRow.mk Status.queued 2 0 0 0 0 none none none none

def c8FEnv : ScanEnv :=
  ScanEnv.mk (fun _ => none) (fun _ => TileOutcome.ok 0) (fun _ => false) true 100

def c8Tile : Tile := Tile.mk 17 0 0

def c8ScanRow : JobRow := JobRow.mk Status.scanning 2 3 2 0 0 (some 1) none none none

/-- C8 witness: the propagation statement applied at concrete inputs for
each of its parts. -/
theorem C8_witness :
    ((runScanM 17 c8Range false c8WRow false c8Env).err =
      some "Scan job not found") ∧
    ((c8WRow.status = Status.queued ∨ c8WRow.status = Status.paused) ∧
      (runScanM 17 c8Range true c8WRow true c8Env).err =
        some "Failed to update scan job") ∧
    (c8FEnv.finalFail = true ∧
      (runLoop c8FEnv [] 0 c8WRow 0 0).err = some "Failed to update scan job") ∧
    (c8Env.ext 0 = none ∧ c8ScanRow.status ≠ Status.paused ∧
      c8Env.updFail 0 = true ∧
      runLoop c8Env [c8Tile] 0 c8ScanRow 3 2 =
        RunResult.mk
          (runLoop c8Env [] 1 c8ScanRow (3 + 1)
            (2 + processTileModel (c8Env.outcome 0))).row
          (c8Tile :: (runLoop c8Env [] 1 c8ScanRow (3 + 1)
            (2 + processTileModel (c8Env.outcome 0))).visited)
          (c8ScanRow.status :: (runLoop c8Env [] 1 c8ScanRow (3 + 1)
            (2 + processTileModel (c8Env.outcome 0))).trace)
          (runLoop c8Env [] 1 c8ScanRow (3 + 1)
            (2 + processTileModel (c8Env.outcome 0))).err) ∧
    ((∀ j, c8Env.ext j ≠ some ExtAction.cancel) ∧
      c8WRow.status ≠ Status.failed ∧
      (runScanM 17 c8Range true c8WRow false c8Env).row.status ≠ Status.failed) :=
  ⟨(C8_engine_error_propagation.1 17 c8Range c8WRow false c8Env).1,
   ⟨Or.inl rfl,
    (C8_engine_error_propagation.2.1 17 c8Range c8WRow c8Env (Or.inl rfl)).1⟩,
   ⟨rfl, (C8_engine_error_propagation.2.2.1 c8FEnv 0 c8WRow 0 0 rfl).1⟩,
   ⟨rfl, by decide, rfl,
    C8_engine_error_propagation.2.2.2.1 c8Env c8Tile [] 0 c8ScanRow 3 2 rfl
      (by decide) rfl⟩,
   ⟨fun j => by simp [c8Env], by decide,
    C8_engine_error_propagation.2.2.2.2 17 c8Range true c8WRow false c8Env
      (fun j => by simp [c8Env]) (by decide)⟩⟩

/-- C9 scenario: a scanning job with nonzero counters and no completion
timestamp. -/
def c9Row : JobRow := JobRow.mk Status.scanning 10 5 2 3 7 (some 1) none none none

/-- C9 counterexample: cancelling a scanning job persists status failed
and the fixed message and leaves the counters alone, but no completion
timestamp is written — completedAt is still unset afterwards. -/
theorem C9_counterexample :
    (cancelAction c9Row).status = Status.failed ∧
    (cancelAction c9Row).errorMessage = some "Cancelled by user" ∧
    (cancelAction c9Row).scannedTiles = 5 ∧
    (cancelAction c9Row).sitesFound = 2 ∧
    c9Row.completedAt = none ∧
    (cancelAction c9Row).completedAt = none := by decide

/-- C9 amended: cancelling a scanning or paused job sets status failed and
errorMessage Cancelled by user and changes nothing else — in particular
scannedTiles and sitesFound keep their last persisted values, and no
completion timestamp is persisted (completedAt is left as it was). -/
theorem C9_cancel_frame :
    ∀ row : JobRow,
      (row.status = Status.scanning ∨ row.status = Status.paused) →
      cancelAction row = JobRow.mk Status.failed row.totalTiles row.scannedTiles
        row.sitesFound row.currentTileX row.currentTileY row.startedAt
        row.pausedAt row.completedAt (some "Cancelled by user") := by
  intro row h
  rcases h with h | h <;> simp [cancelAction, writeCancelled, h]

/-- C9 witness: the cancellation frame statement applied to the concrete
scanning row. -/
theorem C9_witness :
    (c9Row.status = Status.scanning ∨ c9Row.status = Status.paused) ∧
    cancelAction c9Row = JobRow.mk Status.failed 10 5 2 3 7 (some 1) none none
      (some "Cancelled by user") :=
  ⟨Or.inl rfl, C9_cancel_frame c9Row (Or.inl rfl)⟩

/-- C10: the geolocated coordinate of a detected feature with relative
position in the unit square always lies inside the tile bounding box it
was computed from. -/
theorem C10_geolocate_in_bounds
    (f : DetectedFeature) (b : BoundingBox)
    (hx0 : 0 ≤ f.locX) (hx1 : f.locX ≤ 1)
    (hy0 : 0 ≤ f.locY) (hy1 : f.locY ≤ 1)
    (hns : b.south < b.north) (hwe : b.west < b.east) :
    b.south ≤ (featureToGeoCoordinates f b).1 ∧
    (featureToGeoCoordinates f b).1 ≤ b.north ∧
    b.west ≤ (featureToGeoCoordinates f b).2 ∧
    (featureToGeoCoordinates f b).2 ≤ b.east := by
  simp only [featureToGeoCoordinates]
  refine ⟨?_, ?_, ?_, ?_⟩ <;> nlinarith

noncomputable def c10Feature : DetectedFeature :=
  DetectedFeature.mk "mound" Confidence.high (1 / 2) (1 / 4) (some 25) "round"

noncomputable def c10Bbox : BoundingBox := BoundingBox.mk 39 38 (-83) (-84)

/-- C10 witness: the in-bounds statement applied to a concrete feature in
a concrete tile box. -/
theorem C10_witness :
    (0 ≤ c10Feature.locX ∧ c10Feature.locX ≤ 1 ∧ 0 ≤ c10Feature.locY ∧
      c10Feature.locY ≤ 1 ∧ c10Bbox.south < c10Bbox.north ∧
      c10Bbox.west < c10Bbox.east) ∧
    (c10Bbox.south ≤ (featureToGeoCoordinates c10Feature c10Bbox).1 ∧
      (featureToGeoCoordinates c10Feature c10Bbox).1 ≤ c10Bbox.north ∧
      c10Bbox.west ≤ (featureToGeoCoordinates c10Feature c10Bbox).2 ∧
      (featureToGeoCoordinates c10Feature c10Bbox).2 ≤ c10Bbox.east) :=
  ⟨⟨by norm_num [c10Feature], by norm_num [c10Feature], by norm_num [c10Feature],
    by norm_num [c10Feature], by norm_num [c10Bbox], by norm_num [c10Bbox]⟩,
   C10_geolocate_in_bounds c10Feature c10Bbox (by norm_num [c10Feature])
     (by norm_num [c10Feature]) (by norm_num [c10Feature])
     (by norm_num [c10Feature]) (by norm_num [c10Bbox]) (by norm_num [c10Bbox])⟩

/-- C6: a candidate at or above the confidence threshold is suppressed by
the dedup gate exactly when some known or verified site lies within the
planar dedup box of the fixed 0.05 km radius; when suppressed nothing is
inserted, otherwise the candidate is inserted with status potential. -/
theorem C6_dedup_gate
    (db : List SiteRow) (f : DetectedFeature) (tileBbox : BoundingBox)
    (threshold : ℝ)
    (hconf : threshold ≤ confidenceToNumber f.confidence) :
    (hasNearbySite db
        (tileBbox.north - (tileBbox.north - tileBbox.south) * f.locY)
        (tileBbox.west + (tileBbox.east - tileBbox.west) * f.locX) 0.05 →
      storeTileFeatures threshold tileBbox db [f] = (db, 0)) ∧
    (¬ hasNearbySite db
        (tileBbox.north - (tileBbox.north - tileBbox.south) * f.locY)
        (tileBbox.west + (tileBbox.east - tileBbox.west) * f.locX) 0.05 →
      storeTileFeatures threshold tileBbox db [f] =
        (db ++ [SiteRow.mk
          (tileBbox.north - (tileBbox.north - tileBbox.south) * f.locY)
          (tileBbox.west + (tileBbox.east - tileBbox.west) * f.locX)
          "potential" "pending"], 1)) := by
  constructor <;> intro h <;>
    simp only [storeTileFeatures, storePotentialSite]
  · rw [if_neg (not_lt.mpr hconf), if_pos h]
  · rw [if_neg (not_lt.mpr hconf), if_neg h]

noncomputable def c6Db : List SiteRow := [SiteRow.mk 39 (-83) "known" "pending"]

noncomputable def c6Feature : DetectedFeature :=
  DetectedFeature.mk "earthwork" Confidence.medium (1 / 2) (1 / 2) none "lines"

noncomputable def c6Bbox : BoundingBox := BoundingBox.mk 40 39 (-82) (-83)

/-- C6 witness: the dedup-gate statement applied to a concrete database,
candidate, tile box and the default 0.5 threshold. -/
theorem C6_witness :
    ((1 : ℝ) / 2 ≤ confidenceToNumber c6Feature.confidence) ∧
    ((hasNearbySite c6Db
        (c6Bbox.north - (c6Bbox.north - c6Bbox.south) * c6Feature.locY)
        (c6Bbox.west + (c6Bbox.east - c6Bbox.west) * c6Feature.locX) 0.05 →
      storeTileFeatures (1 / 2) c6Bbox c6Db [c6Feature] = (c6Db, 0)) ∧
    (¬ hasNearbySite c6Db
        (c6Bbox.north - (c6Bbox.north - c6Bbox.south) * c6Feature.locY)
        (c6Bbox.west + (c6Bbox.east - c6Bbox.west) * c6Feature.locX) 0.05 →
      storeTileFeatures (1 / 2) c6Bbox c6Db [c6Feature] =
        (c6Db ++ [SiteRow.mk
          (c6Bbox.north - (c6Bbox.north - c6Bbox.south) * c6Feature.locY)
          (c6Bbox.west + (c6Bbox.east - c6Bbox.west) * c6Feature.locX)
          "potential" "pending"], 1))) :=
  ⟨by norm_num [confidenceToNumber, c6Feature],
   C6_dedup_gate c6Db c6Feature c6Bbox (1 / 2)
     (by norm_num [confidenceToNumber, c6Feature])⟩

/-- Degenerate (zero-area) bounding box used for the C3 analysis. -/
noncomputable def c3DegenBox : BoundingBox := BoundingBox.mk 38.8 38.8 (-90.0) (-90.3)

/-- C3 counterexample: a degenerate region that region validation rejects
as too small is accepted by the scanner route anyway — the POST handler
creates the job and starts the engine without consulting
validateRegionSize. -/
theorem C3_counterexample :
    (validateRegionSize c3DegenBox).valid = false ∧
    (scannerPost true (fun _ => none)
      (StartScanRequest.mk none RegionType.custom none (some c3DegenBox)
        none)).jobCreated = true ∧
    (scannerPost true (fun _ => none)
      (StartScanRequest.mk none RegionType.custom none (some c3DegenBox)
        none)).engineEntered = true := by
  refine ⟨?_, rfl, rfl⟩
  have harea : calculateArea c3DegenBox = 0 := by
    simp [calculateArea, latRad, c3DegenBox]
  simp only [validateRegionSize, harea]
  rw [if_neg (by norm_num), if_pos (by norm_num)]

/-- C3 amended: validateRegionSize marks regions above 100 square
kilometers and regions of near-zero area invalid, but the scanner route
performs no region validation at all: any custom request carrying a
bounding box (with the API key configured) creates a job and enters the
engine, whatever the region size. -/
theorem C3_scanner_route_skips_region_validation :
    (∀ b : BoundingBox, calculateArea b > 100 →
      (validateRegionSize b).valid = false) ∧
    (∀ b : BoundingBox, calculateArea b < 0.01 →
      (validateRegionSize b).valid = false) ∧
    (∀ (hotZone : String → Option BoundingBox) (nm rid : Option String)
      (zl : Option Int) (b : BoundingBox),
      (scannerPost true hotZone
        (StartScanRequest.mk nm RegionType.custom rid (some b) zl)).jobCreated
          = true ∧
      (scannerPost true hotZone
        (StartScanRequest.mk nm RegionType.custom rid (some b)
          zl)).engineEntered = true) := by
  refine ⟨?_, ?_, ?_⟩
  · intro b h
    simp only [validateRegionSize]
    rw [if_pos h]
  · intro b h
    simp only [validateRegionSize]
    rw [if_neg (by linarith), if_pos h]
  · intro hotZone nm rid zl b
    exact ⟨rfl, rfl⟩

/-- Oversized bounding box used for the C3 witness. -/
noncomputable def c3BigBox : BoundingBox := BoundingBox.mk 60 (-60) 60 (-60)

/-- C3 witness: the amended statement applied to a concrete oversized box,
the concrete degenerate box, and a concrete request. -/
theorem C3_witness :
    (calculateArea c3BigBox > 100 ∧ (validateRegionSize c3BigBox).valid = false) ∧
    (calculateArea c3DegenBox < 0.01 ∧
      (validateRegionSize c3DegenBox).valid = false) ∧
    ((scannerPost true (fun _ => none)
      (StartScanRequest.mk none RegionType.custom none (some c3BigBox)
        none)).jobCreated = true) := by
  have hbig : calculateArea c3BigBox > 100 := by
    have hpi := Real.pi_gt_three
    simp only [calculateArea, latRad, c3BigBox]
    norm_num [Real.cos_zero]
    nlinarith [hpi, sq_nonneg (Real.pi - 3)]
  have hdeg : calculateArea c3DegenBox = 0 := by
    simp [calculateArea, latRad, c3DegenBox]
  refine ⟨⟨hbig, C3_scanner_route_skips_region_validation.1 c3BigBox hbig⟩,
    ⟨by rw [hdeg]; norm_num,
      C3_scanner_route_skips_region_validation.2.1 c3DegenBox
        (by rw [hdeg]; norm_num)⟩,
    (C3_scanner_route_skips_region_validation.2.2 (fun _ => none) none none
      none c3BigBox).1⟩

/-- On the open interval where the cosine is positive the sine stays
strictly above -1. -/
theorem sin_gt_neg_one (t : ℝ) (hc : 0 < Real.cos t) : -1 < Real.sin t := by
  nlinarith [Real.sin_sq_add_cos_sq t, sq_nonneg (1 + Real.sin t)]

/-- The integrand of the Mercator projection: tan plus secant as a single
fraction. -/
theorem tanSec_eq (t : ℝ) :
    Real.tan t + 1 / Real.cos t = (Real.sin t + 1) / Real.cos t := by
  rw [Real.tan_eq_sin_div_cos, div_add_div_same]

/-- tan t + 1 / cos t is positive on the open interval (-pi/2, pi/2), so
its logarithm in the Mercator formula is well defined. -/
theorem tanSec_pos (t : ℝ) (h1 : -(Real.pi / 2) < t) (h2 : t < Real.pi / 2) :
    0 < Real.tan t + 1 / Real.cos t := by
  have hc : 0 < Real.cos t := Real.cos_pos_of_mem_Ioo ⟨h1, h2⟩
  rw [tanSec_eq]
  exact div_pos (by linarith [sin_gt_neg_one t hc]) hc

/-- Cross-multiplied monotonicity of (1 + sin t) / cos t on the open
interval (-pi/2, pi/2), by the sum-to-product identities. -/
theorem key_ineq (t1 t2 : ℝ) (h1 : -(Real.pi / 2) < t1) (h2 : t2 < Real.pi / 2)
    (hle : t1 ≤ t2) :
    (1 + Real.sin t1) * Real.cos t2 ≤ (1 + Real.sin t2) * Real.cos t1 := by
  have hpi := Real.pi_pos
  set a := (t1 + t2) / 2 with ha
  set b := (t2 - t1) / 2 with hb
  have hb0 : 0 ≤ b := by simp [hb]; linarith
  have hblt : b < Real.pi / 2 := by simp [hb]; linarith
  have halt : a < Real.pi / 2 := by simp [ha]; linarith
  have hba : b < Real.pi / 2 + a := by simp [ha, hb]; linarith
  have e1 : Real.cos t1 - Real.cos t2 = 2 * Real.sin a * Real.sin b := by
    rw [Real.cos_sub_cos]
    have h : (t1 - t2) / 2 = -b := by rw [hb]; ring
    rw [h, Real.sin_neg]
    ring_nf
  have e2 : Real.sin (t2 - t1) = 2 * Real.sin b * Real.cos b := by
    have h : t2 - t1 = 2 * b := by rw [hb]; ring
    rw [h, Real.sin_two_mul]
  have e3 : Real.sin (t2 - t1) =
      Real.sin t2 * Real.cos t1 - Real.cos t2 * Real.sin t1 := Real.sin_sub t2 t1
  have hsb : 0 ≤ Real.sin b :=
    Real.sin_nonneg_of_nonneg_of_le_pi hb0 (by linarith)
  have hsum : 0 ≤ Real.sin a + Real.cos b := by
    rcases le_or_lt 0 a with hc | hc
    · have hsa : 0 ≤ Real.sin a :=
        Real.sin_nonneg_of_nonneg_of_le_pi hc (by linarith)
      have hcb : 0 < Real.cos b := Real.cos_pos_of_mem_Ioo ⟨by linarith, hblt⟩
      linarith
    · have hlt : Real.cos (Real.pi / 2 + a) < Real.cos b :=
        Real.cos_lt_cos_of_nonneg_of_le_pi hb0 (by linarith) hba
      have hca : Real.cos (Real.pi / 2 + a) = -Real.sin a := by
        rw [Real.cos_add]
        simp
      linarith [hca ▸ hlt]
  nlinarith [mul_nonneg hsb hsum]

/-- tan t + 1 / cos t is monotone on the open interval (-pi/2, pi/2). -/
theorem tanSec_mono (t1 t2 : ℝ) (h1 : -(Real.pi / 2) < t1) (h2 : t2 < Real.pi / 2)
    (hle : t1 ≤ t2) :
    Real.tan t1 + 1 / Real.cos t1 ≤ Real.tan t2 + 1 / Real.cos t2 := by
  have hc1 : 0 < Real.cos t1 := Real.cos_pos_of_mem_Ioo ⟨h1, by linarith⟩
  have hc2 : 0 < Real.cos t2 := Real.cos_pos_of_mem_Ioo ⟨by linarith, h2⟩
  rw [tanSec_eq, tanSec_eq, div_le_div_iff₀ hc1 hc2]
  nlinarith [key_ineq t1 t2 h1 h2 hle]

/-- The hyperbolic sine inverts the Mercator integrand: sinh of
log(tan t + 1/cos t) is tan t, the algebraic heart of the round trip
between bboxToTileRange and tileToBbox. -/
theorem sinh_log_tanSec (t : ℝ) (h1 : -(Real.pi / 2) < t) (h2 : t < Real.pi / 2) :
    Real.sinh (Real.log (Real.tan t + 1 / Real.cos t)) = Real.tan t := by
  have hc : 0 < Real.cos t := Real.cos_pos_of_mem_Ioo ⟨h1, h2⟩
  have hA : 0 < Real.tan t + 1 / Real.cos t := tanSec_pos t h1 h2
  rw [Real.sinh_eq, Real.exp_neg, Real.exp_log hA]
  rw [tanSec_eq] at hA ⊢
  rw [Real.tan_eq_sin_div_cos]
  have hs : -1 < Real.sin t := sin_gt_neg_one t hc
  have hs1 : Real.sin t + 1 ≠ 0 := by linarith
  have hc0 : Real.cos t ≠ 0 := ne_of_gt hc
  field_simp
  ring_nf
  nlinarith [Real.sin_sq_add_cos_sq t]

/-- A latitude within 85 degrees of the equator maps to a radian angle
strictly inside (-pi/2, pi/2). -/
theorem latRad_bounds (lat : ℝ) (h1 : -85 ≤ lat) (h2 : lat ≤ 85) :
    -(Real.pi / 2) < latRad lat ∧ latRad lat < Real.pi / 2 := by
  have hpi := Real.pi_pos
  constructor
  · have := mul_nonneg (by linarith : (0:ℝ) ≤ lat + 85) hpi.le
    simp only [latRad]
    nlinarith
  · have := mul_nonneg (by linarith : (0:ℝ) ≤ 85 - lat) hpi.le
    simp only [latRad]
    nlinarith

/-- The fractional Mercator row is antitone in latitude: the north edge of
a box lands on a row at most that of the south edge. -/
theorem mercN_le_mercN (b : BoundingBox) (n : ℝ) (hn : 0 ≤ n)
    (hsn : b.south ≤ b.north) (hs85 : -85 ≤ b.south) (hn85 : b.north ≤ 85) :
    mercN b.north n ≤ mercN b.south n := by
  have hpi := Real.pi_pos
  have hbs := latRad_bounds b.south hs85 (by linarith)
  have hbn := latRad_bounds b.north (by linarith) hn85
  have hθ : latRad b.south ≤ latRad b.north := by
    simp only [latRad]
    have := mul_nonneg (by linarith : (0:ℝ) ≤ b.north - b.south) hpi.le
    nlinarith
  have hg : Real.log (Real.tan (latRad b.south) + 1 / Real.cos (latRad b.south)) ≤
      Real.log (Real.tan (latRad b.north) + 1 / Real.cos (latRad b.north)) :=
    Real.log_le_log (tanSec_pos _ hbs.1 hbs.2)
      (tanSec_mono _ _ hbs.1 hbn.2 hθ)
  simp only [mercN]
  gcongr

/-- A double loop over h rows and w columns enumerates exactly the linear
indices below h * w, row by row. -/
theorem range_mul_flatMap {α : Type} (w : ℕ) (f : ℕ → ℕ → α) (h : ℕ) :
    (List.range h).flatMap (fun rI => List.map (fun c => f c rI) (List.range w)) =
      List.map (fun i => f (i % w) (i / w)) (List.range (h * w)) := by
  induction h with
  | zero => simp
  | succ h ih =>
    rw [List.range_succ, List.flatMap_append, ih]
    simp only [List.flatMap_cons, List.flatMap_nil, List.append_nil]
    rw [show (h + 1) * w = h * w + w by ring, List.range_add, List.map_append]
    congr 1
    rw [List.map_map]
    apply List.map_congr_left
    intro j hj
    have hjw : j < w := List.mem_range.mp hj
    have hw : 0 < w := lt_of_le_of_lt (Nat.zero_le j) hjw
    simp only [Function.comp_apply]
    congr 1
    · rw [Nat.add_comm, Nat.add_mul_mod_self_right, Nat.mod_eq_of_lt hjw]
    · rw [Nat.mul_comm h w, Nat.mul_add_div hw, Nat.div_eq_of_lt hjw, Nat.add_zero]

/-- Row-major characterisation of the tile loop: the emitted list is the
image of the linear indices 0, 1, ... under index-to-tile decoding. -/
theorem iterateTilesL_eq (z : Int) (r : TileRange) :
    iterateTilesL z r =
      List.map
        (fun i : Nat => Tile.mk z (r.minX + ((i % (r.maxX - r.minX + 1).toNat : ℕ) : ℤ))
          (r.minY + ((i / (r.maxX - r.minX + 1).toNat : ℕ) : ℤ)))
        (List.range ((r.maxY - r.minY + 1).toNat * (r.maxX - r.minX + 1).toNat)) := by
  have hA : iterateTilesL z r =
      (List.range (r.maxY - r.minY + 1).toNat).flatMap
        (fun rI => List.map
          (fun c : Nat => Tile.mk z (r.minX + (c : ℤ)) (r.minY + (rI : ℤ)))
          (List.range (r.maxX - r.minX + 1).toNat)) := by
    simp only [iterateTilesL, rangeInt, List.flatMap_map, List.map_map]
    rfl
  rw [hA, range_mul_flatMap]

/-- C4: over any bounding box with west at most east and south at most
north within the Mercator range, tile iteration emits exactly
(maxX-minX+1)*(maxY-minY+1) tiles — the value of calculateTileCount —
pairwise distinct, each exactly once, in row-major order (the i-th tile
is (minX + i mod width, minY + i div width)). -/
theorem C4_row_major_enumeration (b : BoundingBox) (zoom : ℕ)
    (hwe : b.west ≤ b.east) (hsn : b.south ≤ b.north)
    (hs85 : -85 ≤ b.south) (hn85 : b.north ≤ 85) :
    ((iterateTiles b zoom).length : ℤ) = calculateTileCount b zoom ∧
    (iterateTiles b zoom).Nodup ∧
    iterateTiles b zoom =
      List.map
        (fun i : Nat => Tile.mk (zoom : ℤ)
          ((bboxToTileRange b zoom).minX +
            ((i % (rangeWidth (bboxToTileRange b zoom)).toNat : ℕ) : ℤ))
          ((bboxToTileRange b zoom).minY +
            ((i / (rangeWidth (bboxToTileRange b zoom)).toNat : ℕ) : ℤ)))
        (List.range (iterateTiles b zoom).length) := by
  have hn2 : (0:ℝ) < 2 ^ zoom := by positivity
  have hx : (bboxToTileRange b zoom).minX ≤ (bboxToTileRange b zoom).maxX := by
    simp only [bboxToTileRange]
    apply Int.floor_le_floor
    gcongr
  have hy : (bboxToTileRange b zoom).minY ≤ (bboxToTileRange b zoom).maxY := by
    simp only [bboxToTileRange]
    exact Int.floor_le_floor (mercN_le_mercN b _ hn2.le hsn hs85 hn85)
  set r := bboxToTileRange b zoom with hr
  have hlen : (iterateTiles b zoom).length =
      (r.maxY - r.minY + 1).toNat * (r.maxX - r.minX + 1).toNat := by
    rw [iterateTiles, ← hr, iterateTilesL_eq]
    simp
  refine ⟨?_, ?_, ?_⟩
  · rw [hlen]
    have h1 : (0:ℤ) ≤ r.maxX - r.minX + 1 := by omega
    have h2 : (0:ℤ) ≤ r.maxY - r.minY + 1 := by omega
    rw [calculateTileCount, ← hr, rangeCount]
    push_cast [Int.toNat_of_nonneg h1, Int.toNat_of_nonneg h2]
    ring
  · rw [iterateTiles, ← hr, iterateTilesL_eq]
    apply List.Nodup.map ?_ (List.nodup_range _)
    intro i j hij
    simp only [Tile.mk.injEq] at hij
    obtain ⟨-, h1, h2⟩ := hij
    have e1 : i % (r.maxX - r.minX + 1).toNat = j % (r.maxX - r.minX + 1).toNat := by
      have := add_left_cancel h1
      exact_mod_cast this
    have e2 : i / (r.maxX - r.minX + 1).toNat = j / (r.maxX - r.minX + 1).toNat := by
      have := add_left_cancel h2
      exact_mod_cast this
    calc i = (r.maxX - r.minX + 1).toNat * (i / (r.maxX - r.minX + 1).toNat) +
          i % (r.maxX - r.minX + 1).toNat := (Nat.div_add_mod i _).symm
      _ = (r.maxX - r.minX + 1).toNat * (j / (r.maxX - r.minX + 1).toNat) +
          j % (r.maxX - r.minX + 1).toNat := by rw [e1, e2]
      _ = j := Nat.div_add_mod j _
  · rw [hlen, iterateTiles, ← hr, iterateTilesL_eq]
    simp only [rangeWidth]

/-- Any Mercator row at or below the fractional row of a latitude decodes
through tileToBbox to a latitude at or above it. -/
theorem lat_le_arctan_sinh (lat m n : ℝ) (hn : 0 < n)
    (h1 : -(Real.pi / 2) < latRad lat) (h2 : latRad lat < Real.pi / 2)
    (hm : m ≤ mercN lat n) :
    lat ≤ Real.arctan (Real.sinh (Real.pi * (1 - 2 * m / n))) * 180 / Real.pi := by
  have hpi := Real.pi_pos
  simp only [mercN] at hm
  set G := Real.log (Real.tan (latRad lat) + 1 / Real.cos (latRad lat)) with hG
  have hm2 : m * 2 * Real.pi ≤ (Real.pi - G) * n := by
    have e : (1 - G / Real.pi) / 2 * n * (2 * Real.pi) = (Real.pi - G) * n := by
      have hπ : Real.pi ≠ 0 := ne_of_gt hpi
      field_simp
      ring_nf
      exact Or.inl trivial
    calc m * 2 * Real.pi = m * (2 * Real.pi) := by ring
      _ ≤ (1 - G / Real.pi) / 2 * n * (2 * Real.pi) :=
          mul_le_mul_of_nonneg_right hm (by positivity)
      _ = (Real.pi - G) * n := e
  have hg : G ≤ Real.pi * (1 - 2 * m / n) := by
    have e2 : Real.pi * (1 - 2 * m / n) = (Real.pi * n - 2 * Real.pi * m) / n := by
      field_simp
      ring
    rw [e2, le_div_iff₀ hn]
    nlinarith [hm2]
  have hs : Real.tan (latRad lat) ≤ Real.sinh (Real.pi * (1 - 2 * m / n)) := by
    rw [← sinh_log_tanSec (latRad lat) h1 h2, ← hG]
    exact Real.sinh_le_sinh.mpr hg
  have ha : latRad lat ≤ Real.arctan (Real.sinh (Real.pi * (1 - 2 * m / n))) :=
    calc latRad lat = Real.arctan (Real.tan (latRad lat)) :=
          (Real.arctan_tan h1 h2).symm
      _ ≤ _ := Real.arctan_strictMono.monotone hs
  have hb : lat = latRad lat * 180 / Real.pi := by
    simp only [latRad]
    field_simp
  rw [hb]
  gcongr

/-- Any Mercator row strictly beyond the fractional row of a latitude
decodes through tileToBbox to a latitude at or below it. -/
theorem arctan_sinh_le_lat (lat m n : ℝ) (hn : 0 < n)
    (h1 : -(Real.pi / 2) < latRad lat) (h2 : latRad lat < Real.pi / 2)
    (hm : mercN lat n < m) :
    Real.arctan (Real.sinh (Real.pi * (1 - 2 * m / n))) * 180 / Real.pi ≤ lat := by
  have hpi := Real.pi_pos
  simp only [mercN] at hm
  set G := Real.log (Real.tan (latRad lat) + 1 / Real.cos (latRad lat)) with hG
  have hm2 : (Real.pi - G) * n ≤ m * 2 * Real.pi := by
    have e : (1 - G / Real.pi) / 2 * n * (2 * Real.pi) = (Real.pi - G) * n := by
      have hπ : Real.pi ≠ 0 := ne_of_gt hpi
      field_simp
      ring_nf
      exact Or.inl trivial
    calc (Real.pi - G) * n = (1 - G / Real.pi) / 2 * n * (2 * Real.pi) := e.symm
      _ ≤ m * (2 * Real.pi) :=
          mul_le_mul_of_nonneg_right hm.le (by positivity)
      _ = m * 2 * Real.pi := by ring
  have hg : Real.pi * (1 - 2 * m / n) ≤ G := by
    have e2 : Real.pi * (1 - 2 * m / n) = (Real.pi * n - 2 * Real.pi * m) / n := by
      field_simp
      ring
    rw [e2, div_le_iff₀ hn]
    nlinarith [hm2]
  have hs : Real.sinh (Real.pi * (1 - 2 * m / n)) ≤ Real.tan (latRad lat) := by
    rw [← sinh_log_tanSec (latRad lat) h1 h2, ← hG]
    exact Real.sinh_le_sinh.mpr hg
  have ha : Real.arctan (Real.sinh (Real.pi * (1 - 2 * m / n))) ≤ latRad lat :=
    calc Real.arctan (Real.sinh (Real.pi * (1 - 2 * m / n)))
        ≤ Real.arctan (Real.tan (latRad lat)) := Real.arctan_strictMono.monotone hs
      _ = latRad lat := Real.arctan_tan h1 h2
  have hb : lat = latRad lat * 180 / Real.pi := by
    simp only [latRad]
    field_simp
  rw [hb]
  gcongr

/-- C5: for a bounding box with south at most north and west at most east,
latitudes within the contiguous Web-Mercator range, the box spanned by
the footprints of the corner tiles of bboxToTileRange contains the
original box: tiling over-covers and never under-covers. -/
theorem C5_tiling_over_covers (b : BoundingBox) (zoom : ℕ)
    (hsn : b.south ≤ b.north) (hwe : b.west ≤ b.east)
    (hs85 : -85 ≤ b.south) (hn85 : b.north ≤ 85) :
    (tileToBbox (Tile.mk (zoom : ℤ) (bboxToTileRange b zoom).minX
      (bboxToTileRange b zoom).minY)).west ≤ b.west ∧
    b.east ≤ (tileToBbox (Tile.mk (zoom : ℤ) (bboxToTileRange b zoom).maxX
      (bboxToTileRange b zoom).maxY)).east ∧
    (tileToBbox (Tile.mk (zoom : ℤ) (bboxToTileRange b zoom).maxX
      (bboxToTileRange b zoom).maxY)).south ≤ b.south ∧
    b.north ≤ (tileToBbox (Tile.mk (zoom : ℤ) (bboxToTileRange b zoom).minX
      (bboxToTileRange b zoom).minY)).north := by
  have hpi := Real.pi_pos
  have hn2 : (0:ℝ) < 2 ^ zoom := by positivity
  have hbs := latRad_bounds b.south hs85 (by linarith)
  have hbn := latRad_bounds b.north (by linarith) hn85
  have hzp : ((2:ℝ) ^ (zoom : ℤ)) = (2:ℝ) ^ zoom := zpow_natCast 2 zoom
  simp only [tileToBbox, bboxToTileRange, hzp]
  refine ⟨?_, ?_, ?_, ?_⟩
  · have hfl : ((⌊(b.west + 180) / 360 * 2 ^ zoom⌋ : ℤ) : ℝ) ≤
        (b.west + 180) / 360 * 2 ^ zoom := Int.floor_le _
    have h2 : ((⌊(b.west + 180) / 360 * 2 ^ zoom⌋ : ℤ) : ℝ) / 2 ^ zoom * 360 ≤
        ((b.west + 180) / 360 * 2 ^ zoom) / 2 ^ zoom * 360 := by gcongr
    have e : ((b.west + 180) / 360 * 2 ^ zoom) / 2 ^ zoom * 360 = b.west + 180 := by
      field_simp
      ring
    linarith
  · have hfl : (b.east + 180) / 360 * 2 ^ zoom <
        ((⌊(b.east + 180) / 360 * 2 ^ zoom⌋ : ℤ) : ℝ) + 1 := Int.lt_floor_add_one _
    have h2 : ((b.east + 180) / 360 * 2 ^ zoom) / 2 ^ zoom * 360 ≤
        (((⌊(b.east + 180) / 360 * 2 ^ zoom⌋ : ℤ) : ℝ) + 1) / 2 ^ zoom * 360 := by
      gcongr
    have e : ((b.east + 180) / 360 * 2 ^ zoom) / 2 ^ zoom * 360 = b.east + 180 := by
      field_simp
      ring
    linarith
  · exact arctan_sinh_le_lat b.south _ _ hn2 hbs.1 hbs.2
      (by linarith [Int.lt_floor_add_one (mercN b.south (2 ^ zoom))])
  · exact lat_le_arctan_sinh b.north _ _ hn2 hbn.1 hbn.2
      (Int.floor_le (mercN b.north (2 ^ zoom)))

/-- The concrete scan region of the specification scenarios, used for the
C4 witness. -/
noncomputable def c4Box : BoundingBox := BoundingBox.mk 38.8 38.5 (-89.9) (-90.3)

/-- C4 witness: the enumeration statement applied to the concrete region
at zoom 13. -/
theorem C4_witness :
    (c4Box.west ≤ c4Box.east ∧ c4Box.south ≤ c4Box.north ∧ -85 ≤ c4Box.south ∧
      c4Box.north ≤ 85) ∧
    (((iterateTiles c4Box 13).length : ℤ) = calculateTileCount c4Box 13 ∧
      (iterateTiles c4Box 13).Nodup ∧
      iterateTiles c4Box 13 =
        List.map
          (fun i : Nat => Tile.mk ((13 : ℕ) : ℤ)
            ((bboxToTileRange c4Box 13).minX +
              ((i % (rangeWidth (bboxToTileRange c4Box 13)).toNat : ℕ) : ℤ))
            ((bboxToTileRange c4Box 13).minY +
              ((i / (rangeWidth (bboxToTileRange c4Box 13)).toNat : ℕ) : ℤ)))
          (List.range (iterateTiles c4Box 13).length)) :=
  ⟨⟨by norm_num [c4Box], by norm_num [c4Box], by norm_num [c4Box],
    by norm_num [c4Box]⟩,
   C4_row_major_enumeration c4Box 13 (by norm_num [c4Box]) (by norm_num [c4Box])
     (by norm_num [c4Box]) (by norm_num [c4Box])⟩

/-- The concrete scan region of the specification scenarios, used for the
C5 witness. -/
noncomputable def c5Box : BoundingBox := BoundingBox.mk 38.8 38.5 (-89.9) (-90.3)

/-- C5 witness: the over-coverage statement applied to the concrete region
at zoom 13. -/
theorem C5_witness :
    (c5Box.south ≤ c5Box.north ∧ c5Box.west ≤ c5Box.east ∧ -85 ≤ c5Box.south ∧
      c5Box.north ≤ 85) ∧
    ((tileToBbox (Tile.mk ((13 : ℕ) : ℤ) (bboxToTileRange c5Box 13).minX
        (bboxToTileRange c5Box 13).minY)).west ≤ c5Box.west ∧
      c5Box.east ≤ (tileToBbox (Tile.mk ((13 : ℕ) : ℤ)
        (bboxToTileRange c5Box 13).maxX (bboxToTileRange c5Box 13).maxY)).east ∧
      (tileToBbox (Tile.mk ((13 : ℕ) : ℤ) (bboxToTileRange c5Box 13).maxX
        (bboxToTileRange c5Box 13).maxY)).south ≤ c5Box.south ∧
      c5Box.north ≤ (tileToBbox (Tile.mk ((13 : ℕ) : ℤ)
        (bboxToTileRange c5Box 13).minX (bboxToTileRange c5Box 13).minY)).north) :=
  ⟨⟨by norm_num [c5Box], by norm_num [c5Box], by norm_num [c5Box],
    by norm_num [c5Box]⟩,
   C5_tiling_over_covers c5Box 13 (by norm_num [c5Box]) (by norm_num [c5Box])
     (by norm_num [c5Box]) (by norm_num [c5Box])⟩
